import Mathlib

set_option linter.unusedVariables false

/-!
Shallow embedding of the whisper.cpp HTTP API pipeline (src/api/app.py and
src/whisper_api/app.py): the time-code normalizer `_time_to_ms`, the caption
extractor `_parse_whisper_output`, and the `/transcribe` orchestrator with its
cleanup phase.  Python runtime values appearing in the engine's JSON output are
modelled by `JVal`; a Python expression that can raise is modelled as an
`Option`-valued computation where `none` means "an exception was raised".
Python floats are modelled as rationals: the extractor only passes float
values through (or converts via `float()`), it performs no float arithmetic,
so no rounding behaviour is observable in the claims treated here.
-/

/-- JSON-like Python runtime values (result of `json.load` plus the values the
extractor builds).  Objects are association lists with distinct keys, as
produced by `json.load` (duplicate keys collapse before the extractor runs). -/
inductive JVal where
  | jnull : JVal
  | jbool : Bool → JVal
  | jint : Int → JVal
  | jfloat : Rat → JVal
  | jstr : String → JVal
  | jarr : List JVal → JVal
  | jobj : List (String × JVal) → JVal

/-- First-match association-list lookup, modelling Python dict access. -/
def lookupA (kvs : List (String × JVal)) (k : String) : Option JVal :=
  match kvs with
  | [] => none
  | kv :: rest => if kv.1 = k then some kv.2 else lookupA rest k

/-- Python `v.get(k, d)` : succeeds only on a dict, otherwise AttributeError. -/
def pyGetD (v : JVal) (k : String) (d : JVal) : Option JVal :=
  match v with
  | JVal.jobj kvs => some ((lookupA kvs k).getD d)
  | _ => none

/-- Python `v[k]` for a string key: KeyError when the key is absent,
TypeError on a non-dict (list and str subscripts need integer/slice keys). -/
def pySub (v : JVal) (k : String) : Option JVal :=
  match v with
  | JVal.jobj kvs => lookupA kvs k
  | _ => none

/-- Does the needle start the haystack (character lists)? -/
def lsw : List Char → List Char → Bool
  | [], _ => true
  | _ :: _, [] => false
  | a :: as, b :: bs => a == b && lsw as bs

/-- Substring containment on character lists (Python `needle in haystack`). -/
def hasSub (n : List Char) : List Char → Bool
  | [] => n.isEmpty
  | c :: cs => lsw n (c :: cs) || hasSub n cs

/-- Python `k in v` for a string `k`: key test on dicts, element test on
lists, substring test on strings, TypeError otherwise. -/
def pyInStr (k : String) (v : JVal) : Option Bool :=
  match v with
  | JVal.jobj kvs => some (kvs.any (fun kv => kv.1 == k))
  | JVal.jarr xs => some (xs.any (fun x => match x with
      | JVal.jstr s => s == k
      | _ => false))
  | JVal.jstr s => some (hasSub k.data s.data)
  | _ => none

/-- Python iteration `for x in v`: lists yield elements, strings yield
one-character strings, dicts yield their keys; other values raise TypeError. -/
def pyIterate (v : JVal) : Option (List JVal) :=
  match v with
  | JVal.jarr xs => some xs
  | JVal.jstr s => some (s.data.map (fun c => JVal.jstr (String.mk [c])))
  | JVal.jobj kvs => some (kvs.map (fun kv => JVal.jstr kv.1))
  | _ => none

/-- A value usable as a Python `str` (so `.strip()` and friends apply). -/
def asStr (v : JVal) : Option String :=
  match v with
  | JVal.jstr s => some s
  | _ => none

/-- ASCII whitespace stripped by Python `str.strip()` (the unicode spaces
Python additionally strips never occur in the inputs treated here). -/
def pySpace (c : Char) : Bool :=
  c == ' ' || c == '\t' || c == '\n' || c == '\r' ||
  c == Char.ofNat 11 || c == Char.ofNat 12

/-- Python `str.strip()` on a character list. -/
def pyStripL (l : List Char) : List Char :=
  ((l.dropWhile pySpace).reverse.dropWhile pySpace).reverse

/-- Python `str.strip()`. -/
def pyStrip (s : String) : String := String.mk (pyStripL s.data)

/-- ASCII decimal digit. -/
def isDig (c : Char) : Bool := 48 ≤ c.toNat && c.toNat ≤ 57

/-- Value of a digit string, most significant first. -/
def digitsVal (l : List Char) : Nat :=
  l.foldl (fun a c => a * 10 + (c.toNat - 48)) 0

/-- Parse a non-empty all-digit character list. -/
def parseDigits (l : List Char) : Option Nat :=
  if !l.isEmpty && l.all isDig then some (digitsVal l) else none

/-- Sign-and-digits part of Python `int(s)`, after whitespace stripping. -/
def pyIntSigned (l : List Char) : Option Int :=
  match l with
  | [] => none
  | c :: rest =>
    if c == '-' then (parseDigits rest).map (fun n => -(n : Int))
    else if c == '+' then (parseDigits rest).map (fun n => (n : Int))
    else (parseDigits (c :: rest)).map (fun n => (n : Int))

/-- Python `int(s)` on a string: optional surrounding whitespace, optional
sign, then decimal digits; anything else raises ValueError.  (Underscore
digit separators and non-ASCII digits, which Python also accepts, do not
occur in the inputs treated here.) -/
def pyIntStrL (l : List Char) : Option Int := pyIntSigned (pyStripL l)

/-- Python `float(s)` on the grammar subset `[ws][sign]digits[.digits]` /
`[sign].digits` actually reachable here (exponents, `inf`, `nan` and
underscores never occur in the inputs treated by the claims). -/
def pyFloatStrL (l : List Char) : Option Rat :=
  match pyStripL l with
  | [] => none
  | c :: rest =>
    let body := if c == '-' || c == '+' then rest else c :: rest
    let neg := c == '-'
    match body.span (fun d => d != '.') with
    | (intPart, fracRaw) =>
      let q : Option Rat :=
        match fracRaw with
        | [] => (parseDigits intPart).map (fun n => (n : Rat))
        | _ :: frac =>
          if frac.contains '.' then none
          else if intPart.isEmpty && frac.isEmpty then none
          else if intPart.all isDig && frac.all isDig then
            some ((digitsVal intPart : Rat) +
              (digitsVal frac : Rat) / ((10 : Rat) ^ frac.length))
          else none
      q.map (fun x => if neg then -x else x)

/-- Python `int(v)`: ints pass through, bools are 0/1, floats truncate toward
zero, strings parse; other values raise. -/
def pyInt (v : JVal) : Option Int :=
  match v with
  | JVal.jint n => some n
  | JVal.jbool b => some (if b then 1 else 0)
  | JVal.jfloat q => some (q.num.tdiv (q.den : Int))
  | JVal.jstr s => pyIntStrL s.data
  | _ => none

/-- Python `float(v)`: floats pass through, ints and bools convert, strings
parse; other values raise. -/
def pyFloat (v : JVal) : Option Rat :=
  match v with
  | JVal.jfloat q => some q
  | JVal.jint n => some (n : Rat)
  | JVal.jbool b => some (if b then 1 else 0)
  | JVal.jstr s => pyFloatStrL s.data
  | _ => none

/-- Python `s.split(sep)` for a one-character separator: no merging of empty
fields, the empty string splits to `[""]`. -/
def pySplitChar (sep : Char) : List Char → List (List Char)
  | [] => [[]]
  | c :: cs =>
    if c == sep then [] :: pySplitChar sep cs
    else match pySplitChar sep cs with
      | [] => [[c]]
      | h :: t => (c :: h) :: t

/-- Python slice `s[:n]` on a string. -/
def strTake (n : Nat) (s : String) : String := String.mk (s.data.take n)

/-- Python `str.lower()` (ASCII case fold; suffixes here are ASCII). -/
def pyLower (s : String) : String := String.mk (s.data.map Char.toLower)

/-- Python `" ".join(xs)`. -/
def pyJoinSpace (xs : List String) : String :=
  match xs with
  | [] => ""
  | x :: rest => rest.foldl (fun a b => a ++ " " ++ b) x

/-- One caption record as built by `_parse_whisper_output`: the confidence
slot carries a raw Python value because `src/whisper_api/app.py` stores the
token's `p` field without conversion. -/
structure Caption where
  text : String
  startMs : Int
  endMs : Int
  confidence : JVal

/-- The accumulation pattern of the extractor loops: process items in order,
appending each item's captions; the first raising item aborts everything
(Python exception propagation). -/
def collectM (f : JVal → Option (List Caption)) : List JVal → Option (List Caption)
  | [] => some []
  | x :: xs => do
    let cs ← f x
    let rest ← collectM f xs
    pure (cs ++ rest)

namespace Api

/-- Body of the `try` block of `_time_to_ms` in src/api/app.py: split on `:`,
parse hours and minutes, split the third field on `.`, parse seconds and the
optional fractional part; `none` models any raised exception. -/
def timeCore (l : List Char) : Option Int := do
  let parts := pySplitChar ':' l
  let p0 ← parts[0]?
  let p1 ← parts[1]?
  let p2 ← parts[2]?
  let h ← pyIntStrL p0
  let m ← pyIntStrL p1
  let sp := pySplitChar '.' p2
  let s0 ← sp[0]?
  let s ← pyIntStrL s0
  let ms ← if 1 < sp.length then do
      let s1 ← sp[1]?
      pyIntStrL s1
    else pure (0 : Int)
  pure ((h * 3600 + m * 60 + s) * 1000 + ms)

/-- `_time_to_ms` of src/api/app.py: the `except Exception: return 0`
wrapper around `timeCore`. -/
def time_to_ms (t : String) : Int := (Api.timeCore t.data).getD 0

/-- `_time_to_ms` applied to an arbitrary runtime value: a non-string raises
AttributeError at `.split`, inside the `try`, hence also returns 0. -/
def time_to_ms_v (v : JVal) : Int :=
  match v with
  | JVal.jstr s => Api.time_to_ms s
  | _ => 0

end Api

namespace Wapi

/-- Body of the `try` block of `_time_to_ms` in src/whisper_api/app.py
(verbatim duplicate of the src/api/app.py function). -/
def timeCore (l : List Char) : Option Int := do
  let parts := pySplitChar ':' l
  let p0 ← parts[0]?
  let p1 ← parts[1]?
  let p2 ← parts[2]?
  let h ← pyIntStrL p0
  let m ← pyIntStrL p1
  let sp := pySplitChar '.' p2
  let s0 ← sp[0]?
  let s ← pyIntStrL s0
  let ms ← if 1 < sp.length then do
      let s1 ← sp[1]?
      pyIntStrL s1
    else pure (0 : Int)
  pure ((h * 3600 + m * 60 + s) * 1000 + ms)

/-- `_time_to_ms` of src/whisper_api/app.py. -/
def time_to_ms (t : String) : Int := (Wapi.timeCore t.data).getD 0

/-- `_time_to_ms` of src/whisper_api/app.py on an arbitrary runtime value. -/
def time_to_ms_v (v : JVal) : Int :=
  match v with
  | JVal.jstr s => Wapi.time_to_ms s
  | _ => 0

end Wapi

namespace Api

/-- The token branch body of `_parse_whisper_output` in src/api/app.py: trim
the token text (raising if the text value is not a string), skip when empty
or starting with an opening bracket, otherwise build one caption from the
token's offsets (via `int(...)`) and its probability (via `float(...)`). -/
def tokenCaption (token : JVal) : Option (List Caption) := do
  let tv ← pyGetD token "text" (JVal.jstr "")
  let raw ← asStr tv
  let text := pyStrip raw
  if text.data.isEmpty || text.data.headD ' ' == '[' then pure []
  else do
    let offs ← pyGetD token "offsets" (JVal.jobj [])
    let fv ← pyGetD offs "from" (JVal.jint 0)
    let a ← pyInt fv
    let gv ← pyGetD offs "to" (JVal.jint 0)
    let b ← pyInt gv
    let pv ← pyGetD token "p" (JVal.jfloat 0)
    let q ← pyFloat pv
    pure [⟨text, a, b, JVal.jfloat q⟩]

/-- The segment-level branch of `_parse_whisper_output` in src/api/app.py:
trim the segment text, skip when empty, otherwise build one caption with
`_time_to_ms`-normalized timestamps and confidence 1.0. -/
def segmentFallback (seg : JVal) : Option (List Caption) := do
  let tv ← pyGetD seg "text" (JVal.jstr "")
  let raw ← asStr tv
  let text := pyStrip raw
  if text.data.isEmpty then pure []
  else do
    let ts ← pyGetD seg "timestamps" (JVal.jobj [])
    let fv ← pyGetD ts "from" (JVal.jstr "00:00:00.000")
    let gv ← pyGetD ts "to" (JVal.jstr "00:00:00.000")
    pure [⟨text, Api.time_to_ms_v fv, Api.time_to_ms_v gv, JVal.jfloat 1⟩]

/-- Per-segment dispatch of `_parse_whisper_output` in src/api/app.py:
`if word_level and "tokens" in segment` (short-circuit: the `in` test runs
only when word_level is requested) selects the token loop, otherwise the
segment-level branch. -/
def segmentCaptions (wl : Bool) (seg : JVal) : Option (List Caption) :=
  if wl then do
    let b ← pyInStr "tokens" seg
    if b then do
      let toks ← pySub seg "tokens"
      let items ← pyIterate toks
      collectM Api.tokenCaption items
    else Api.segmentFallback seg
  else Api.segmentFallback seg

/-- `_parse_whisper_output` of src/api/app.py: iterate
`data.get("transcription", [])` and accumulate captions per segment. -/
def parse_whisper_output (data : JVal) (wl : Bool) : Option (List Caption) := do
  let tr ← pyGetD data "transcription" (JVal.jarr [])
  let segs ← pyIterate tr
  collectM (Api.segmentCaptions wl) segs

end Api

namespace Wapi

/-- The token branch body of `_parse_whisper_output` in src/whisper_api/app.py:
like src/api/app.py but the offsets dict is fetched separately for each bound
and the probability is stored raw, without a `float(...)` conversion. -/
def tokenCaption (token : JVal) : Option (List Caption) := do
  let tv ← pyGetD token "text" (JVal.jstr "")
  let raw ← asStr tv
  let text := pyStrip raw
  if text.data.isEmpty || text.data.headD ' ' == '[' then pure []
  else do
    let o1 ← pyGetD token "offsets" (JVal.jobj [])
    let fv ← pyGetD o1 "from" (JVal.jint 0)
    let a ← pyInt fv
    let o2 ← pyGetD token "offsets" (JVal.jobj [])
    let gv ← pyGetD o2 "to" (JVal.jint 0)
    let b ← pyInt gv
    let pv ← pyGetD token "p" (JVal.jfloat 0)
    pure [⟨text, a, b, pv⟩]

/-- The segment-level branch of `_parse_whisper_output` in
src/whisper_api/app.py (verbatim duplicate of the src/api/app.py branch). -/
def segmentFallback (seg : JVal) : Option (List Caption) := do
  let tv ← pyGetD seg "text" (JVal.jstr "")
  let raw ← asStr tv
  let text := pyStrip raw
  if text.data.isEmpty then pure []
  else do
    let ts ← pyGetD seg "timestamps" (JVal.jobj [])
    let fv ← pyGetD ts "from" (JVal.jstr "00:00:00.000")
    let gv ← pyGetD ts "to" (JVal.jstr "00:00:00.000")
    pure [⟨text, Wapi.time_to_ms_v fv, Wapi.time_to_ms_v gv, JVal.jfloat 1⟩]

/-- Per-segment dispatch of `_parse_whisper_output` in src/whisper_api/app.py. -/
def segmentCaptions (wl : Bool) (seg : JVal) : Option (List Caption) :=
  if wl then do
    let b ← pyInStr "tokens" seg
    if b then do
      let toks ← pySub seg "tokens"
      let items ← pyIterate toks
      collectM Wapi.tokenCaption items
    else Wapi.segmentFallback seg
  else Wapi.segmentFallback seg

/-- `_parse_whisper_output` of src/whisper_api/app.py. -/
def parse_whisper_output (data : JVal) (wl : Bool) : Option (List Caption) := do
  let tr ← pyGetD data "transcription" (JVal.jarr [])
  let segs ← pyIterate tr
  collectM (Wapi.segmentCaptions wl) segs

end Wapi

/-- `pathlib.Path(name).suffix` on a character list: the part of the final
path component from its last dot, empty when the dot is absent, leading, or
trailing. -/
def pathSuffixL (l : List Char) : List Char :=
  let rbn := l.reverse.takeWhile (fun c => c ≠ '/')
  let tail := rbn.takeWhile (fun c => c ≠ '.')
  if 0 < tail.length ∧ tail.length + 1 < rbn.length then '.' :: tail.reverse
  else []

/-- `pathlib.Path(name).suffix`. -/
def pathSuffix (s : String) : String := String.mk (pathSuffixL s.data)

/-- `pathlib.Path(name).with_suffix(newSuf)`: drop the current suffix and
append the new one. -/
def pathWithSuffix (s : String) (newSuf : String) : String :=
  String.mk ((s.data.take (s.data.length - (pathSuffixL s.data).length)) ++ newSuf.data)

/-- Startup configuration of src/api/app.py: the engine binary path
(`WHISPER_BIN`), the model name (`WHISPER_MODEL`) and the three model search
directories (`WHISPER_MODELS_DIR`, the in-tree models directory, and the
user cache directory). -/
structure Config where
  whisperBin : String
  whisperModel : String
  modelsDir : String
  baseModelsDir : String
  homeCacheDir : String

/-- External-world oracle for one `/transcribe` request of src/api/app.py:
every interaction of the handler with the filesystem and the two external
processes, in request order.  The process calls are modelled by their exit
status and stderr text (timeouts, which raise out of the handler, are outside
the claims treated here).  `filename = ""` models a missing upload filename
(Python `audio.filename or "audio.wav"` treats `None` and `""` alike).
`jsonData` is the parse result of whichever output artifact is located
(`none` models a `json.load` exception). -/
structure Env where
  binPathExists : Bool
  whichRes : Option String
  modelFs : String → Bool
  filename : String
  tmpBase : String
  ffmpegRc : Int
  ffmpegErr : String
  engineRc : Int
  engineErr : String
  jsonExists : Bool
  altJsonExists : Bool
  jsonData : Option JVal
  wordTimestamps : Bool
  unlinkFails : String → Bool

/-- Outcome of one request: a success payload, an `HTTPException` with its
status code and detail text, or an exception escaping the handler. -/
inductive Resp where
  | ok : List Caption → String → Resp
  | err : Nat → String → Resp
  | raised : Resp

/-- Result of the modelled handler: the response, the temporary paths the
request created, and the paths whose removal the cleanup phase attempted. -/
structure TResult where
  resp : Resp
  created : List String
  attempts : List String

namespace Api

/-- `find_model_path` of src/api/app.py: first existing
`dir/ggml-<model>.bin` over the three search directories. -/
def find_model_path (cfg : Config) (fs : String → Bool) : Option String :=
  let name := "ggml-" ++ cfg.whisperModel ++ ".bin"
  ([cfg.modelsDir, cfg.baseModelsDir, cfg.homeCacheDir].map
    (fun d => d ++ "/" ++ name)).find? fs

/-- The binary check of `transcribe` in src/api/app.py: a literal path that
exists, else `shutil.which`. -/
def binaryPathOf (cfg : Config) (env : Env) : Option String :=
  if env.binPathExists then some cfg.whisperBin else env.whichRes

/-- The staged-upload extension: `Path(audio.filename or "audio.wav").suffix
or ".wav"`. -/
def suffixOf (env : Env) : String :=
  let fname := if env.filename = "" then "audio.wav" else env.filename
  let s := pathSuffix fname
  if s = "" then ".wav" else s

/-- Reading and extracting the located output artifact (src/api/app.py lines
165-175): a `json.load` or extractor exception escapes the handler. -/
def finishJson (env : Env) : Resp :=
  match env.jsonData with
  | none => Resp.raised
  | some d =>
    match Api.parse_whisper_output d env.wordTimestamps with
    | none => Resp.raised
    | some cs => Resp.ok cs (pyJoinSpace (cs.map Caption.text))

/-- Locating the output artifact (src/api/app.py lines 155-163): the primary
name `wav_path + ".json"`, the fallback `Path(wav_path).with_suffix(".json")`,
else a 500 error. -/
def locateAndFinish (env : Env) (wavPath : String) (created : List String) :
    Resp × List String :=
  let jsonPath := wavPath ++ ".json"
  if env.jsonExists then (Api.finishJson env, created ++ [jsonPath])
  else
    let alt := pathWithSuffix wavPath ".json"
    if env.altJsonExists then (Api.finishJson env, created ++ [alt])
    else (Resp.err 500 "Whisper did not produce JSON output", created)

/-- Engine invocation (src/api/app.py lines 136-153): non-zero exit becomes a
500 error carrying stderr truncated to 300 characters. -/
def runEngine (env : Env) (wavPath : String) (created : List String) :
    Resp × List String :=
  if env.engineRc ≠ 0 then
    (Resp.err 500 ("Whisper transcription failed: " ++ strTake 300 env.engineErr),
     created)
  else Api.locateAndFinish env wavPath created

/-- The `try` block of `transcribe` in src/api/app.py: convert non-WAV
uploads via ffmpeg (400 on failure, stderr truncated to 200 characters),
then invoke the engine.  Returns the response together with the temporary
paths created inside the block. -/
def tryBody (env : Env) (suffix tmpPath : String) : Resp × List String :=
  if pyLower suffix ≠ ".wav" then
    let wavPath := tmpPath ++ ".wav"
    if env.ffmpegRc ≠ 0 then
      (Resp.err 400 ("Audio conversion failed: " ++ strTake 200 env.ffmpegErr),
       [wavPath])
    else Api.runEngine env wavPath [wavPath]
  else Api.runEngine env tmpPath []

/-- `transcribe` of src/api/app.py: availability checks (503 before any
temporary file exists), staging of the upload, the `try` body, and the
`finally` cleanup that attempts `unlink(missing_ok=True)` on the fixed set
`{tmp, tmp + ".wav", tmp + ".json", tmp + ".wav.json"}`, each wrapped in
`try: ... except Exception: pass`. -/
def transcribe (cfg : Config) (env : Env) : TResult :=
  match Api.binaryPathOf cfg env with
  | none =>
    ⟨Resp.err 503 ("whisper.cpp binary not found: " ++ cfg.whisperBin), [], []⟩
  | some _ =>
    match Api.find_model_path cfg env.modelFs with
    | none =>
      ⟨Resp.err 503 ("Whisper model not found: ggml-" ++ cfg.whisperModel ++
        ".bin (searched in " ++ cfg.modelsDir ++ " and defaults)"), [], []⟩
    | some _ =>
      let sfx := Api.suffixOf env
      let tmpPath := env.tmpBase ++ sfx
      let body := Api.tryBody env sfx tmpPath
      { resp := body.1
        created := tmpPath :: body.2
        attempts := [tmpPath, tmpPath ++ ".wav", tmpPath ++ ".json",
                     tmpPath ++ ".wav.json"] }

end Api

/-! Helper lemmas about the character-level Python builtins. -/

/-- Claim-side input builder: a word-level token object with text, integer
offsets and a float probability, the shape documented for the engine's
full-JSON output. -/
def mkTok : String × Int × Int × Rat → JVal
  | (t, a, b, q) => JVal.jobj [("text", JVal.jstr t),
      ("offsets", JVal.jobj [("from", JVal.jint a), ("to", JVal.jint b)]),
      ("p", JVal.jfloat q)]

/-- Claim-side statement of the word-level per-token rule: skip a token whose
trimmed text is empty or starts with an opening bracket, otherwise emit one
caption with the trimmed text, the token's own offsets and its probability. -/
def specTokenCaption : String × Int × Int × Rat → List Caption
  | (t, a, b, q) =>
    if (pyStrip t).data.isEmpty || ((pyStrip t).data.headD ' ' == '[') then []
    else [⟨pyStrip t, a, b, JVal.jfloat q⟩]

/-- Claim-side input builder: one segment holding only a token list. -/
def mkWordData (ts : List (String × Int × Int × Rat)) : JVal :=
  JVal.jobj [("transcription", JVal.jarr
    [JVal.jobj [("tokens", JVal.jarr (ts.map mkTok))]])]

/-- Token well-typedness along the evaluation path of the word-level branch:
the token is a dict; its text (defaulted to "") is a string; its offsets
(defaulted to an empty dict) form a dict whose `from`/`to` values (defaulted
to 0) are `int()`-convertible; its probability (defaulted to 0.0) is
`float()`-convertible.  Missing fields are always allowed. -/
def tokOk (tok : JVal) : Bool :=
  match tok with
  | JVal.jobj kvs =>
    (match (lookupA kvs "text").getD (JVal.jstr "") with
      | JVal.jstr _ => true
      | _ => false)
    && (match (lookupA kvs "offsets").getD (JVal.jobj []) with
      | JVal.jobj os =>
        (pyInt ((lookupA os "from").getD (JVal.jint 0))).isSome
        && (pyInt ((lookupA os "to").getD (JVal.jint 0))).isSome
      | _ => false)
    && (pyFloat ((lookupA kvs "p").getD (JVal.jfloat 0))).isSome
  | _ => false

/-- Segment well-typedness: a dict whose text (defaulted) is a string, whose
timestamps (defaulted) are a dict, and whose token list, when present, is a
list of well-typed tokens. -/
def segOk (seg : JVal) : Bool :=
  match seg with
  | JVal.jobj kvs =>
    (match (lookupA kvs "text").getD (JVal.jstr "") with
      | JVal.jstr _ => true
      | _ => false)
    && (match (lookupA kvs "timestamps").getD (JVal.jobj []) with
      | JVal.jobj _ => true
      | _ => false)
    && (match lookupA kvs "tokens" with
      | none => true
      | some (JVal.jarr toks) => toks.all tokOk
      | some _ => false)
  | _ => false

/-- Output well-typedness: a dict whose transcription (defaulted to the empty
list) is a list of well-typed segments. -/
def dataOk (d : JVal) : Bool :=
  match d with
  | JVal.jobj kvs =>
    match (lookupA kvs "transcription").getD (JVal.jarr []) with
    | JVal.jarr segs => segs.all segOk
    | _ => false
  | _ => false

/-- Probability well-typedness for the two-implementation comparison: a token
dict's `p` value, when present, is a float; all other values are
unconstrained. -/
def tokPOk (t : JVal) : Bool :=
  match t with
  | JVal.jobj kvs =>
    match lookupA kvs "p" with
    | none => true
    | some (JVal.jfloat _) => true
    | some _ => false
  | _ => true

/-- Per-segment probability well-typedness: every token in a present token
list satisfies `tokPOk`. -/
def segPOk (seg : JVal) : Bool :=
  match seg with
  | JVal.jobj kvs =>
    match lookupA kvs "tokens" with
    | some (JVal.jarr toks) => toks.all tokPOk
    | _ => true
  | _ => true

/-- Whole-output probability well-typedness. -/
def dataPOk (d : JVal) : Bool :=
  match d with
  | JVal.jobj kvs =>
    match (lookupA kvs "transcription").getD (JVal.jarr []) with
    | JVal.jarr segs => segs.all segPOk
    | _ => true
  | _ => true

/-- Input on which the two extractors diverge: one token with probability
`null`. -/
def c9Input : JVal :=
  JVal.jobj [("transcription", JVal.jarr [JVal.jobj [("tokens", JVal.jarr
    [JVal.jobj [("text", JVal.jstr "hi"), ("p", JVal.jnull)]])]])]

/-- Input with a float probability, used as the equivalence witness. -/
def c9WitnessInput : JVal :=
  JVal.jobj [("transcription", JVal.jarr [JVal.jobj [("tokens", JVal.jarr
    [JVal.jobj [("text", JVal.jstr "hi"),
      ("offsets", JVal.jobj [("from", JVal.jint 3), ("to", JVal.jint 7)]),
      ("p", JVal.jfloat 1)]])]])]

/-! Path and truncation lemmas for the orchestrator claims. -/

/-! Unfolding lemmas for the orchestrator. -/

/-- Configuration used by the C2 scenarios. -/
def c2cfg : Config :=
  ⟨"/usr/bin/whisper-cli", "medium", "/models", "/repo/models", "/home/cache"⟩

/-- A request environment in which every stage succeeds (mp3 upload, so
conversion runs). -/
def c2okEnv : Env :=
  { binPathExists := true, whichRes := none,
    modelFs := fun p => p == "/models/ggml-medium.bin",
    filename := "a.mp3", tmpBase := "/tmp/t1",
    ffmpegRc := 0, ffmpegErr := "", engineRc := 0, engineErr := "",
    jsonExists := true, altJsonExists := false,
    jsonData := some (JVal.jobj [("transcription", JVal.jarr [])]),
    wordTimestamps := true, unlinkFails := fun _ => false }

/-- A request environment with a .wav upload whose output artifact appears
only under the fallback name. -/
def c2wavEnv : Env :=
  { binPathExists := true, whichRes := none,
    modelFs := fun p => p == "/models/ggml-medium.bin",
    filename := "a.wav", tmpBase := "/tmp/t1",
    ffmpegRc := 0, ffmpegErr := "", engineRc := 0, engineErr := "",
    jsonExists := false, altJsonExists := true,
    jsonData := some (JVal.jobj [("transcription", JVal.jarr [])]),
    wordTimestamps := true, unlinkFails := fun _ => false }

/-- Configuration whose engine binary does not resolve. -/
def c7cfg : Config :=
  ⟨"/usr/bin/whisper-missing", "medium", "/models", "/repo/models",
   "/home/cache"⟩

/-- Environment in which neither the binary path nor `which` resolves. -/
def c7env : Env :=
  { binPathExists := false, whichRes := none, modelFs := fun _ => false,
    filename := "", tmpBase := "/tmp/t7",
    ffmpegRc := 0, ffmpegErr := "", engineRc := 0, engineErr := "",
    jsonExists := false, altJsonExists := false, jsonData := none,
    wordTimestamps := true, unlinkFails := fun _ => false }

/-- Configuration for the C8 witness (engine binary missing). -/
def c8cfg : Config :=
  ⟨"/usr/bin/whisper-gone", "medium", "/models", "/repo/models",
   "/home/cache"⟩

/-- Environment for the C8 witness. -/
def c8env : Env :=
  { binPathExists := false, whichRes := none, modelFs := fun _ => false,
    filename := "b.mp3", tmpBase := "/tmp/t8",
    ffmpegRc := 0, ffmpegErr := "", engineRc := 0, engineErr := "",
    jsonExists := false, altJsonExists := false, jsonData := none,
    wordTimestamps := true, unlinkFails := fun _ => false }

example : pathSuffix "/tmp/a.wav" = ".wav" := by decide

example : pathSuffix "/tmp/.bashrc" = "" := by decide

example : pathSuffix "/tmp/ab." = "" := by decide

example : pathSuffix "a.tar.gz" = ".gz" := by decide

example : pathSuffix "audio" = "" := by decide

example : pathWithSuffix "/tmp/t1.wav" ".json" = "/tmp/t1.json" := by decide

example : pathWithSuffix "/tmp/t1.mp3.wav" ".json" = "/tmp/t1.mp3.json" := by decide

example : Api.time_to_ms "01:02:03.456" = 3723456 := by decide

example : Api.time_to_ms "00:00:00.000" = 0 := by decide

example : Api.time_to_ms "1:2" = 0 := by decide

example : Api.time_to_ms "bad" = 0 := by decide

example : Api.time_to_ms "" = 0 := by decide

example : Api.time_to_ms "01:02:03" = 3723000 := by decide

example : Api.time_to_ms " 1:2:3.4 " = 3723004 := by decide

example : Api.time_to_ms "1: 2:3.4" = 3723004 := by decide

theorem isDig_bounds {c : Char} (h : isDig c = true) :
    48 ≤ c.toNat ∧ c.toNat ≤ 57 := by
  simpa [isDig, Bool.and_eq_true, decide_eq_true_eq] using h

theorem isDig_facts {c : Char} (h : isDig c = true) :
    pySpace c = false ∧ (c == '-') = false ∧ (c == '+') = false ∧
    c ≠ ':' ∧ c ≠ '.' := by
  have hb := isDig_bounds h
  refine ⟨?_, ?_, ?_, ?_, ?_⟩
  · have n1 : (c == ' ') = false :=
      beq_eq_false_iff_ne.mpr (by rintro rfl; exact absurd hb.1 (by decide))
    have n2 : (c == '\t') = false :=
      beq_eq_false_iff_ne.mpr (by rintro rfl; exact absurd hb.1 (by decide))
    have n3 : (c == '\n') = false :=
      beq_eq_false_iff_ne.mpr (by rintro rfl; exact absurd hb.1 (by decide))
    have n4 : (c == '\r') = false :=
      beq_eq_false_iff_ne.mpr (by rintro rfl; exact absurd hb.1 (by decide))
    have n5 : (c == Char.ofNat 11) = false :=
      beq_eq_false_iff_ne.mpr (by rintro rfl; exact absurd hb.1 (by decide))
    have n6 : (c == Char.ofNat 12) = false :=
      beq_eq_false_iff_ne.mpr (by rintro rfl; exact absurd hb.1 (by decide))
    simp [pySpace, n1, n2, n3, n4, n5, n6]
  · rw [beq_eq_false_iff_ne]
    rintro rfl; exact absurd hb.1 (by decide)
  · rw [beq_eq_false_iff_ne]
    rintro rfl; exact absurd hb.1 (by decide)
  · rintro rfl; exact absurd hb.2 (by decide)
  · rintro rfl; exact absurd hb.1 (by decide)

theorem pyStripL_eq_self {l : List Char} (hl : ∀ c ∈ l, pySpace c = false) :
    pyStripL l = l := by
  have h1 : l.dropWhile pySpace = l := by
    cases l with
    | nil => rfl
    | cons a t => rw [List.dropWhile_cons, hl a (by simp)]; simp
  rw [pyStripL, h1]
  have h2 : l.reverse.dropWhile pySpace = l.reverse := by
    cases hrev : l.reverse with
    | nil => rfl
    | cons a t =>
      have ha : a ∈ l := List.mem_reverse.mp (by rw [hrev]; simp)
      rw [List.dropWhile_cons, hl a ha]; simp
  rw [h2, List.reverse_reverse]

theorem pyIntStrL_digits {l : List Char} (h0 : l ≠ [])
    (hd : l.all isDig = true) : pyIntStrL l = some ((digitsVal l : Int)) := by
  have hall := List.all_eq_true.mp hd
  have hstrip : pyStripL l = l :=
    pyStripL_eq_self (fun c hc => (isDig_facts (hall c hc)).1)
  rw [pyIntStrL, hstrip]
  cases l with
  | nil => exact absurd rfl h0
  | cons c rest =>
    have hf := isDig_facts (hall c (by simp))
    rw [pyIntSigned, hf.2.1, hf.2.2.1]
    simp only [Bool.false_eq_true, if_false, parseDigits]
    rw [if_pos]
    · rfl
    · simp [hd]

theorem pySplitChar_append_sep (sep : Char) (a b : List Char)
    (ha : ∀ c ∈ a, c ≠ sep) :
    pySplitChar sep (a ++ sep :: b) = a :: pySplitChar sep b := by
  induction a with
  | nil => simp [pySplitChar]
  | cons c t ih =>
    have hc : (c == sep) = false :=
      beq_eq_false_iff_ne.mpr (ha c (by simp))
    have ih' := ih (fun x hx => ha x (by simp [hx]))
    rw [List.cons_append, pySplitChar, hc]
    simp only [Bool.false_eq_true, if_false, ih']

theorem pySplitChar_no_sep (sep : Char) (a : List Char)
    (ha : ∀ c ∈ a, c ≠ sep) : pySplitChar sep a = [a] := by
  induction a with
  | nil => rfl
  | cons c t ih =>
    have hc : (c == sep) = false :=
      beq_eq_false_iff_ne.mpr (ha c (by simp))
    have ih' := ih (fun x hx => ha x (by simp [hx]))
    rw [pySplitChar, hc]
    simp only [Bool.false_eq_true, if_false, ih']

theorem api_timeCore_full (hh mm ss mss : List Char)
    (h1 : hh ≠ []) (h2 : mm ≠ []) (h3 : ss ≠ []) (h4 : mss ≠ [])
    (d1 : hh.all isDig = true) (d2 : mm.all isDig = true)
    (d3 : ss.all isDig = true) (d4 : mss.all isDig = true) :
    Api.timeCore (hh ++ ':' :: (mm ++ ':' :: (ss ++ '.' :: mss))) =
      some (((digitsVal hh : Int) * 3600 + (digitsVal mm : Int) * 60 +
        (digitsVal ss : Int)) * 1000 + (digitsVal mss : Int)) := by
  have a1 := List.all_eq_true.mp d1
  have a2 := List.all_eq_true.mp d2
  have a3 := List.all_eq_true.mp d3
  have a4 := List.all_eq_true.mp d4
  have hs1 : pySplitChar ':' (hh ++ ':' :: (mm ++ ':' :: (ss ++ '.' :: mss))) =
      [hh, mm, ss ++ '.' :: mss] := by
    rw [pySplitChar_append_sep ':' hh _ (fun c hc => (isDig_facts (a1 c hc)).2.2.2.1),
        pySplitChar_append_sep ':' mm _ (fun c hc => (isDig_facts (a2 c hc)).2.2.2.1),
        pySplitChar_no_sep ':' _ ?_]
    intro c hc
    rcases List.mem_append.mp hc with hcs | hcm
    · exact (isDig_facts (a3 c hcs)).2.2.2.1
    · rcases List.mem_cons.mp hcm with rfl | hcm'
      · decide
      · exact (isDig_facts (a4 c hcm')).2.2.2.1
  have hs2 : pySplitChar '.' (ss ++ '.' :: mss) = [ss, mss] := by
    rw [pySplitChar_append_sep '.' ss _ (fun c hc => (isDig_facts (a3 c hc)).2.2.2.2),
        pySplitChar_no_sep '.' _ (fun c hc => (isDig_facts (a4 c hc)).2.2.2.2)]
  rw [Api.timeCore, hs1]
  simp only [Option.bind_eq_bind, Option.pure_def, List.getElem?_cons_zero,
    List.getElem?_cons_succ, Option.some_bind,
    pyIntStrL_digits h1 d1, pyIntStrL_digits h2 d2, hs2,
    pyIntStrL_digits h3 d3, pyIntStrL_digits h4 d4, List.length_cons]
  norm_num

theorem api_timeCore_noFrac (hh mm ss : List Char)
    (h1 : hh ≠ []) (h2 : mm ≠ []) (h3 : ss ≠ [])
    (d1 : hh.all isDig = true) (d2 : mm.all isDig = true)
    (d3 : ss.all isDig = true) :
    Api.timeCore (hh ++ ':' :: (mm ++ ':' :: ss)) =
      some (((digitsVal hh : Int) * 3600 + (digitsVal mm : Int) * 60 +
        (digitsVal ss : Int)) * 1000) := by
  have a1 := List.all_eq_true.mp d1
  have a2 := List.all_eq_true.mp d2
  have a3 := List.all_eq_true.mp d3
  have hs1 : pySplitChar ':' (hh ++ ':' :: (mm ++ ':' :: ss)) = [hh, mm, ss] := by
    rw [pySplitChar_append_sep ':' hh _ (fun c hc => (isDig_facts (a1 c hc)).2.2.2.1),
        pySplitChar_append_sep ':' mm _ (fun c hc => (isDig_facts (a2 c hc)).2.2.2.1),
        pySplitChar_no_sep ':' _ (fun c hc => (isDig_facts (a3 c hc)).2.2.2.1)]
  have hs2 : pySplitChar '.' ss = [ss] :=
    pySplitChar_no_sep '.' _ (fun c hc => (isDig_facts (a3 c hc)).2.2.2.2)
  rw [Api.timeCore, hs1]
  simp only [Option.bind_eq_bind, Option.pure_def, List.getElem?_cons_zero,
    List.getElem?_cons_succ, Option.some_bind,
    pyIntStrL_digits h1 d1, pyIntStrL_digits h2 d2, hs2,
    pyIntStrL_digits h3 d3, List.length_cons, List.length_nil]
  norm_num

/-- C3: for every well-formed timestamp string of shape HH:MM:SS.mmm with
numeric (digit) fields of any width, `_time_to_ms` returns
hours*3600000 + minutes*60000 + seconds*1000 + milliseconds; in particular
normalize("01:02:03.456") = 3723456 and normalize("00:00:00.000") = 0; and
the malformed strings "1:2" (wrong field count), "bad" (non-numeric) and ""
all yield 0 without raising. -/
theorem C3_time_normalizer_contract :
    (∀ hh mm ss mss : List Char, hh ≠ [] → mm ≠ [] → ss ≠ [] → mss ≠ [] →
      hh.all isDig = true → mm.all isDig = true → ss.all isDig = true →
      mss.all isDig = true →
      Api.time_to_ms (String.mk (hh ++ ':' :: (mm ++ ':' :: (ss ++ '.' :: mss)))) =
        (digitsVal hh : Int) * 3600000 + (digitsVal mm : Int) * 60000 +
        (digitsVal ss : Int) * 1000 + (digitsVal mss : Int))
    ∧ Api.time_to_ms "01:02:03.456" = 3723456
    ∧ Api.time_to_ms "00:00:00.000" = 0
    ∧ Api.time_to_ms "1:2" = 0
    ∧ Api.time_to_ms "bad" = 0
    ∧ Api.time_to_ms "" = 0 := by
  refine ⟨?_, by decide, by decide, by decide, by decide, by decide⟩
  intro hh mm ss mss h1 h2 h3 h4 d1 d2 d3 d4
  have key := api_timeCore_full hh mm ss mss h1 h2 h3 h4 d1 d2 d3 d4
  show (Api.timeCore (hh ++ ':' :: (mm ++ ':' :: (ss ++ '.' :: mss)))).getD 0 = _
  rw [key]
  show ((digitsVal hh : Int) * 3600 + (digitsVal mm : Int) * 60 +
    (digitsVal ss : Int)) * 1000 + (digitsVal mss : Int) = _
  ring

/-- Witness for C3 at the concrete digit fields 1, 2, 3, 456. -/
theorem C3_time_normalizer_contract_witness :
    Api.time_to_ms (String.mk (['1'] ++ ':' :: (['2'] ++ ':' ::
        (['3'] ++ '.' :: ['4', '5', '6'])))) =
      (digitsVal ['1'] : Int) * 3600000 + (digitsVal ['2'] : Int) * 60000 +
      (digitsVal ['3'] : Int) * 1000 + (digitsVal ['4', '5', '6'] : Int) :=
  C3_time_normalizer_contract.1 ['1'] ['2'] ['3'] ['4', '5', '6']
    (by decide) (by decide) (by decide) (by decide)
    (by decide) (by decide) (by decide) (by decide)

/-- C4: for every timestamp string HH:MM:SS with numeric fields and no
fractional part, `_time_to_ms` treats the missing fractional seconds as 0 ms
and returns the full hours/minutes/seconds value in milliseconds (so
"01:02:03" yields 3723000, not 0): the code satisfies the spec sentence
"missing fractional seconds are treated as 0 ms", not the sentence listing a
missing fractional part among the inputs that return 0 overall. -/
theorem C4_missing_fraction_is_zero_ms :
    (∀ hh mm ss : List Char, hh ≠ [] → mm ≠ [] → ss ≠ [] →
      hh.all isDig = true → mm.all isDig = true → ss.all isDig = true →
      Api.time_to_ms (String.mk (hh ++ ':' :: (mm ++ ':' :: ss))) =
        (digitsVal hh : Int) * 3600000 + (digitsVal mm : Int) * 60000 +
        (digitsVal ss : Int) * 1000)
    ∧ Api.time_to_ms "01:02:03" = 3723000 := by
  refine ⟨?_, by decide⟩
  intro hh mm ss h1 h2 h3 d1 d2 d3
  have key := api_timeCore_noFrac hh mm ss h1 h2 h3 d1 d2 d3
  show (Api.timeCore (hh ++ ':' :: (mm ++ ':' :: ss))).getD 0 = _
  rw [key]
  show ((digitsVal hh : Int) * 3600 + (digitsVal mm : Int) * 60 +
    (digitsVal ss : Int)) * 1000 = _
  ring

/-- Witness for C4 at the concrete digit fields 1, 2, 3. -/
theorem C4_missing_fraction_is_zero_ms_witness :
    Api.time_to_ms (String.mk (['1'] ++ ':' :: (['2'] ++ ':' :: ['3']))) =
      (digitsVal ['1'] : Int) * 3600000 + (digitsVal ['2'] : Int) * 60000 +
      (digitsVal ['3'] : Int) * 1000 :=
  C4_missing_fraction_is_zero_ms.1 ['1'] ['2'] ['3']
    (by decide) (by decide) (by decide) (by decide) (by decide) (by decide)

theorem api_tokenCaption_mkTok (e : String × Int × Int × Rat) :
    Api.tokenCaption (mkTok e) = some (specTokenCaption e) := by
  obtain ⟨t, a, b, q⟩ := e
  have hL : Api.tokenCaption (mkTok (t, a, b, q)) =
      (if (pyStrip t).data.isEmpty || ((pyStrip t).data.headD ' ' == '[') then
        some []
      else some [⟨pyStrip t, a, b, JVal.jfloat q⟩]) := rfl
  rw [hL]
  simp only [specTokenCaption]
  by_cases h : ((pyStrip t).data.isEmpty || ((pyStrip t).data.headD ' ' == '[')) = true
  · simp only [if_pos h]
  · simp only [if_neg h]

theorem wapi_tokenCaption_mkTok (e : String × Int × Int × Rat) :
    Wapi.tokenCaption (mkTok e) = some (specTokenCaption e) := by
  obtain ⟨t, a, b, q⟩ := e
  have hL : Wapi.tokenCaption (mkTok (t, a, b, q)) =
      (if (pyStrip t).data.isEmpty || ((pyStrip t).data.headD ' ' == '[') then
        some []
      else some [⟨pyStrip t, a, b, JVal.jfloat q⟩]) := rfl
  rw [hL]
  simp only [specTokenCaption]
  by_cases h : ((pyStrip t).data.isEmpty || ((pyStrip t).data.headD ' ' == '[')) = true
  · simp only [if_pos h]
  · simp only [if_neg h]

theorem collectM_api_mkTok (ts : List (String × Int × Int × Rat)) :
    collectM Api.tokenCaption (ts.map mkTok) =
      some ((ts.map specTokenCaption).flatten) := by
  induction ts with
  | nil => rfl
  | cons e rest ih =>
    simp only [List.map_cons, collectM, api_tokenCaption_mkTok, ih,
      Option.bind_eq_bind, Option.some_bind, Option.pure_def, List.flatten_cons]

theorem collectM_wapi_mkTok (ts : List (String × Int × Int × Rat)) :
    collectM Wapi.tokenCaption (ts.map mkTok) =
      some ((ts.map specTokenCaption).flatten) := by
  induction ts with
  | nil => rfl
  | cons e rest ih =>
    simp only [List.map_cons, collectM, wapi_tokenCaption_mkTok, ih,
      Option.bind_eq_bind, Option.some_bind, Option.pure_def, List.flatten_cons]

/-- C5: in word-level mode, for every token list: each token's text is
trimmed; a token is skipped entirely when the trimmed text is empty or
begins with an opening bracket; otherwise exactly one caption is emitted
with the trimmed text, the token's own integer offsets used directly, and
the token's probability as confidence — in both src/api/app.py and
src/whisper_api/app.py. -/
theorem C5_word_level_token_rule (ts : List (String × Int × Int × Rat)) :
    Api.parse_whisper_output (mkWordData ts) true =
      some ((ts.map specTokenCaption).flatten)
    ∧ Wapi.parse_whisper_output (mkWordData ts) true =
      some ((ts.map specTokenCaption).flatten) := by
  constructor
  · have h0 : Api.parse_whisper_output (mkWordData ts) true =
        (collectM Api.tokenCaption (ts.map mkTok)).bind
          (fun cs => some (cs ++ [])) := rfl
    rw [h0, collectM_api_mkTok]
    simp
  · have h0 : Wapi.parse_whisper_output (mkWordData ts) true =
        (collectM Wapi.tokenCaption (ts.map mkTok)).bind
          (fun cs => some (cs ++ [])) := rfl
    rw [h0, collectM_wapi_mkTok]
    simp

/-- C6: in word-level mode, a segment without a token list falls back to
segment-level handling: non-empty trimmed text yields exactly one caption
with the trimmed text, `_time_to_ms`-normalized timestamps and confidence
1.0; empty trimmed text skips the segment entirely. -/
theorem C6_segment_fallback_in_word_mode (txt f g : String) :
    Api.parse_whisper_output (JVal.jobj [("transcription", JVal.jarr
        [JVal.jobj [("text", JVal.jstr txt),
          ("timestamps", JVal.jobj
            [("from", JVal.jstr f), ("to", JVal.jstr g)])]])]) true =
      some (if (pyStrip txt).data.isEmpty then []
        else [⟨pyStrip txt, Api.time_to_ms f, Api.time_to_ms g,
          JVal.jfloat 1⟩]) := by
  have h0 : Api.parse_whisper_output (JVal.jobj [("transcription", JVal.jarr
        [JVal.jobj [("text", JVal.jstr txt),
          ("timestamps", JVal.jobj
            [("from", JVal.jstr f), ("to", JVal.jstr g)])]])]) true =
      (if (pyStrip txt).data.isEmpty then (some [] : Option (List Caption))
        else some [⟨pyStrip txt, Api.time_to_ms f, Api.time_to_ms g,
          JVal.jfloat 1⟩]).bind (fun cs => some (cs ++ [])) := rfl
  rw [h0]
  cases hc : (pyStrip txt).data.isEmpty <;> simp [hc]

/-- C10: in word-level mode, a segment whose token list is present but empty
yields zero captions in both implementations: the fallback is triggered only
by absence of the `tokens` key, so the segment's own text and timestamps are
dropped. -/
theorem C10_empty_token_list_drops_segment (txt f g : String) :
    Api.parse_whisper_output (JVal.jobj [("transcription", JVal.jarr
        [JVal.jobj [("text", JVal.jstr txt),
          ("timestamps", JVal.jobj
            [("from", JVal.jstr f), ("to", JVal.jstr g)]),
          ("tokens", JVal.jarr [])]])]) true = some []
    ∧ Wapi.parse_whisper_output (JVal.jobj [("transcription", JVal.jarr
        [JVal.jobj [("text", JVal.jstr txt),
          ("timestamps", JVal.jobj
            [("from", JVal.jstr f), ("to", JVal.jstr g)]),
          ("tokens", JVal.jarr [])]])]) true = some [] :=
  ⟨rfl, rfl⟩

theorem lookupA_isSome_eq_any (kvs : List (String × JVal)) (k : String) :
    (lookupA kvs k).isSome = kvs.any (fun kv => kv.1 == k) := by
  induction kvs with
  | nil => rfl
  | cons kv rest ih =>
    by_cases h : kv.1 = k
    · simp [lookupA, List.any_cons, h]
    · simp only [lookupA, if_neg h, List.any_cons, ih]
      rw [beq_eq_false_iff_ne.mpr h]
      simp

theorem collectM_ok {f : JVal → Option (List Caption)} {l : List JVal}
    (h : ∀ x ∈ l, (f x).isSome = true) : (collectM f l).isSome = true := by
  induction l with
  | nil => rfl
  | cons x xs ih =>
    obtain ⟨a, ha⟩ := Option.isSome_iff_exists.mp (h x (by simp))
    obtain ⟨b, hb⟩ :=
      Option.isSome_iff_exists.mp (ih (fun y hy => h y (by simp [hy])))
    simp [collectM, ha, hb]

theorem api_tokenCaption_ok {tok : JVal} (h : tokOk tok = true) :
    (Api.tokenCaption tok).isSome = true := by
  cases tok
  case jobj kvs =>
    simp only [tokOk, Bool.and_eq_true] at h
    obtain ⟨⟨ht, ho⟩, hp⟩ := h
    rw [Api.tokenCaption]
    cases hvt : (lookupA kvs "text").getD (JVal.jstr "")
    case jstr s =>
      cases hvo : (lookupA kvs "offsets").getD (JVal.jobj [])
      case jobj os =>
        rw [hvo] at ho
        simp only [Bool.and_eq_true] at ho
        obtain ⟨a, ha⟩ := Option.isSome_iff_exists.mp ho.1
        obtain ⟨b, hb⟩ := Option.isSome_iff_exists.mp ho.2
        obtain ⟨q, hq⟩ := Option.isSome_iff_exists.mp hp
        simp only [pyGetD, hvt, hvo, Option.bind_eq_bind, Option.some_bind,
          asStr, ha, hb, hq, Option.pure_def]
        by_cases hc :
            ((pyStrip s).data.isEmpty || ((pyStrip s).data.headD ' ' == '[')) = true
        · rw [if_pos hc]; rfl
        · rw [if_neg hc]
          simp
      all_goals (rw [hvo] at ho; exact Bool.noConfusion ho)
    all_goals (rw [hvt] at ht; exact Bool.noConfusion ht)
  all_goals exact Bool.noConfusion h

theorem api_segmentFallback_ok {kvs : List (String × JVal)}
    (ht : (match (lookupA kvs "text").getD (JVal.jstr "") with
      | JVal.jstr _ => true
      | _ => false) = true)
    (hts : (match (lookupA kvs "timestamps").getD (JVal.jobj []) with
      | JVal.jobj _ => true
      | _ => false) = true) :
    (Api.segmentFallback (JVal.jobj kvs)).isSome = true := by
  rw [Api.segmentFallback]
  cases hvt : (lookupA kvs "text").getD (JVal.jstr "")
  case jstr s =>
    cases hvs : (lookupA kvs "timestamps").getD (JVal.jobj [])
    case jobj tss =>
      simp only [pyGetD, hvt, hvs, Option.bind_eq_bind, Option.some_bind,
        asStr, Option.pure_def]
      by_cases hc : ((pyStrip s).data.isEmpty) = true
      · rw [if_pos hc]; rfl
      · rw [if_neg hc]; rfl
    all_goals (rw [hvs] at hts; exact Bool.noConfusion hts)
  all_goals (rw [hvt] at ht; exact absurd ht (by simp))

theorem api_segmentCaptions_ok {seg : JVal} (h : segOk seg = true) (wl : Bool) :
    (Api.segmentCaptions wl seg).isSome = true := by
  cases seg
  case jobj kvs =>
    simp only [segOk, Bool.and_eq_true] at h
    obtain ⟨⟨ht, hts⟩, htok⟩ := h
    rw [Api.segmentCaptions]
    cases wl with
    | false => exact api_segmentFallback_ok ht hts
    | true =>
      rw [if_pos rfl]
      simp only [pyInStr, Option.bind_eq_bind, Option.some_bind]
      cases hl : lookupA kvs "tokens" with
      | none =>
        have hany : kvs.any (fun kv => kv.1 == "tokens") = false := by
          rw [← lookupA_isSome_eq_any, hl]; rfl
        rw [hany, if_neg Bool.false_ne_true]
        exact api_segmentFallback_ok ht hts
      | some v =>
        have hany : kvs.any (fun kv => kv.1 == "tokens") = true := by
          rw [← lookupA_isSome_eq_any, hl]; rfl
        rw [hany, if_pos rfl]
        rw [hl] at htok
        cases v
        case jarr toks =>
          simp only [pySub, hl, Option.bind_eq_bind, Option.some_bind, pyIterate]
          exact collectM_ok (fun x hx =>
            api_tokenCaption_ok (List.all_eq_true.mp htok x hx))
        all_goals exact Bool.noConfusion htok
  all_goals exact Bool.noConfusion h

/-- C1 (amended): on every engine output whose present fields are well-typed
(text fields strings, offsets dicts with `int()`-convertible bounds,
probabilities `float()`-convertible) — in particular when a token's offsets
dict or probability field is entirely missing — `_parse_whisper_output` of
src/api/app.py raises no exception and returns a caption list; per-item
fields that are absent are given zero/default values.  (The original claim
fails: a present but non-numeric offset value raises, see the
counterexample.) -/
theorem C1_extractor_total_on_welltyped_output :
    ∀ (data : JVal) (wl : Bool), dataOk data = true →
      ∃ cs, Api.parse_whisper_output data wl = some cs := by
  intro data wl h
  rw [← Option.isSome_iff_exists]
  cases data
  case jobj kvs =>
    simp only [dataOk] at h
    rw [Api.parse_whisper_output]
    cases hvt : (lookupA kvs "transcription").getD (JVal.jarr [])
    case jarr segs =>
      rw [hvt] at h
      simp only [pyGetD, hvt, Option.bind_eq_bind, Option.some_bind, pyIterate]
      exact collectM_ok (fun x hx =>
        api_segmentCaptions_ok (List.all_eq_true.mp h x hx) wl)
    all_goals (rw [hvt] at h; exact Bool.noConfusion h)
  all_goals exact Bool.noConfusion h

/-- C1 counterexample: one token whose `offsets.from` holds the non-numeric
string "bad" — `int("bad")` raises ValueError inside `_parse_whisper_output`
of src/api/app.py (there is no surrounding try/except), so extraction aborts
instead of skipping the token; the identical `int(...)` call appears in
src/whisper_api/app.py. -/
theorem C1_counterexample_nonnumeric_offset_raises :
    Api.parse_whisper_output (JVal.jobj
      [("transcription", JVal.jarr [JVal.jobj [("tokens", JVal.jarr [JVal.jobj
        [("text", JVal.jstr "hi"),
         ("offsets", JVal.jobj [("from", JVal.jstr "bad")])]])]])]) true
      = none := rfl

/-- Witness for C1: a token with missing offsets and probability extracts
successfully with defaults. -/
theorem C1_extractor_total_on_welltyped_output_witness :
    dataOk (JVal.jobj [("transcription", JVal.jarr [JVal.jobj
      [("tokens", JVal.jarr [JVal.jobj [("text", JVal.jstr "hi")]])]])]) = true
    ∧ ∃ cs, Api.parse_whisper_output (JVal.jobj [("transcription", JVal.jarr
      [JVal.jobj [("tokens", JVal.jarr [JVal.jobj
        [("text", JVal.jstr "hi")]])]])]) true = some cs :=
  ⟨rfl, C1_extractor_total_on_welltyped_output _ true rfl⟩

theorem collectM_congr {f g : JVal → Option (List Caption)} {l : List JVal}
    (h : ∀ x ∈ l, f x = g x) : collectM f l = collectM g l := by
  induction l with
  | nil => rfl
  | cons x xs ih =>
    simp only [collectM, h x (by simp), ih (fun y hy => h y (by simp [hy]))]

theorem tokenCaption_eq {tok : JVal} (h : tokPOk tok = true) :
    Api.tokenCaption tok = Wapi.tokenCaption tok := by
  cases tok
  case jobj kvs =>
    rw [Api.tokenCaption, Wapi.tokenCaption]
    cases hvt : (lookupA kvs "text").getD (JVal.jstr "") <;>
      simp only [pyGetD, hvt, Option.bind_eq_bind, Option.some_bind, asStr,
        Option.none_bind]
    rename_i s
    by_cases hc :
        ((pyStrip s).data.isEmpty || ((pyStrip s).data.headD ' ' == '[')) = true
    · rw [if_pos hc, if_pos hc]
    · rw [if_neg hc, if_neg hc]
      cases hvo : (lookupA kvs "offsets").getD (JVal.jobj []) <;>
        simp only [pyGetD, hvo, Option.bind_eq_bind, Option.some_bind,
          Option.none_bind]
      rename_i os
      cases ha : pyInt ((lookupA os "from").getD (JVal.jint 0)) with
      | none => rfl
      | some a =>
        simp only [Option.some_bind]
        cases hb : pyInt ((lookupA os "to").getD (JVal.jint 0)) with
        | none => rfl
        | some b =>
          simp only [Option.some_bind, tokPOk] at h ⊢
          cases hp : lookupA kvs "p" with
          | none =>
            simp only [hp, Option.getD_none]
            rfl
          | some pv =>
            rw [hp] at h
            cases pv <;> simp only [hp, Option.getD_some] <;>
              first
                | exact Bool.noConfusion h
                | rfl
  all_goals rfl

theorem segmentFallback_eq (seg : JVal) :
    Api.segmentFallback seg = Wapi.segmentFallback seg := rfl

theorem segmentCaptions_eq {seg : JVal} (h : segPOk seg = true) (wl : Bool) :
    Api.segmentCaptions wl seg = Wapi.segmentCaptions wl seg := by
  rw [Api.segmentCaptions, Wapi.segmentCaptions]
  cases wl with
  | false => exact segmentFallback_eq seg
  | true =>
    rw [if_pos rfl, if_pos rfl]
    cases seg
    case jobj kvs =>
      simp only [pyInStr, Option.bind_eq_bind, Option.some_bind]
      by_cases hb : (kvs.any fun kv => kv.1 == "tokens") = true
      · rw [if_pos hb, if_pos hb]
        simp only [pySub]
        cases hl : lookupA kvs "tokens" with
        | none => rfl
        | some v =>
          simp only [Option.some_bind]
          simp only [segPOk, hl] at h
          cases v <;>
            simp only [pyIterate, Option.bind_eq_bind, Option.some_bind,
              Option.none_bind]
          · rename_i s
            refine collectM_congr (fun x hx => ?_)
            obtain ⟨c, hc, rfl⟩ := List.mem_map.mp hx
            exact tokenCaption_eq rfl
          · rename_i toks
            exact collectM_congr (fun x hx =>
              tokenCaption_eq (List.all_eq_true.mp h x hx))
          · rename_i kvs2
            refine collectM_congr (fun x hx => ?_)
            obtain ⟨kv, hc, rfl⟩ := List.mem_map.mp hx
            exact tokenCaption_eq rfl
      · rw [if_neg hb, if_neg hb]
        exact segmentFallback_eq _
    case jarr xs =>
      simp only [pyInStr, Option.bind_eq_bind, Option.some_bind]
      by_cases hb : (xs.any fun x => match x with
          | JVal.jstr s => s == "tokens"
          | _ => false) = true
      · rw [if_pos hb, if_pos hb]; rfl
      · rw [if_neg hb, if_neg hb]; exact segmentFallback_eq _
    case jstr s =>
      simp only [pyInStr, Option.bind_eq_bind, Option.some_bind]
      by_cases hb : hasSub ("tokens").data s.data = true
      · rw [if_pos hb, if_pos hb]; rfl
      · rw [if_neg hb, if_neg hb]; exact segmentFallback_eq _
    all_goals rfl

/-- C9 (amended): the two caption extractors return equal caption sequences
on every engine output in which each token's probability field, when
present, holds a float (the shape the engine actually emits), and the two
time-normalization functions agree on every input string.  (The unqualified
claim fails: src/api/app.py converts `p` via `float(...)` while
src/whisper_api/app.py stores it raw, see the counterexample.) -/
theorem C9_pipelines_agree_on_float_probabilities :
    (∀ (d : JVal) (wl : Bool), dataPOk d = true →
      Api.parse_whisper_output d wl = Wapi.parse_whisper_output d wl)
    ∧ (∀ s : String, Api.time_to_ms s = Wapi.time_to_ms s) := by
  constructor
  · intro d wl h
    cases d
    case jobj kvs =>
      rw [Api.parse_whisper_output, Wapi.parse_whisper_output]
      simp only [dataPOk] at h
      cases hvt : (lookupA kvs "transcription").getD (JVal.jarr [])
      case jarr segs =>
        rw [hvt] at h
        simp only [pyGetD, hvt, Option.bind_eq_bind, Option.some_bind, pyIterate]
        exact collectM_congr (fun x hx =>
          segmentCaptions_eq (List.all_eq_true.mp h x hx) wl)
      case jstr s =>
        simp only [pyGetD, hvt, Option.bind_eq_bind, Option.some_bind, pyIterate]
        refine collectM_congr (fun x hx => ?_)
        obtain ⟨c, hc, rfl⟩ := List.mem_map.mp hx
        refine segmentCaptions_eq ?_ wl
        rfl
      case jobj kvs2 =>
        simp only [pyGetD, hvt, Option.bind_eq_bind, Option.some_bind, pyIterate]
        refine collectM_congr (fun x hx => ?_)
        obtain ⟨kv, hc, rfl⟩ := List.mem_map.mp hx
        refine segmentCaptions_eq ?_ wl
        rfl
      all_goals (simp only [pyGetD, hvt, Option.bind_eq_bind, Option.some_bind,
        pyIterate, Option.none_bind])
    all_goals exact (rfl : (none : Option (List Caption)) = none)
  · intro s
    rfl

/-- C9 counterexample: on a token whose probability field is null,
`_parse_whisper_output` of src/api/app.py raises (Python `float(None)` is a
TypeError) while the src/whisper_api/app.py version succeeds and stores the
raw null as the caption confidence — the two implementations are not
behaviorally equivalent on every engine output structure. -/
theorem C9_counterexample_null_probability :
    Api.parse_whisper_output c9Input true = none
    ∧ Wapi.parse_whisper_output c9Input true =
        some [⟨"hi", 0, 0, JVal.jnull⟩]
    ∧ Api.parse_whisper_output c9Input true ≠
        Wapi.parse_whisper_output c9Input true := by
  have h1 : Api.parse_whisper_output c9Input true = none := rfl
  have h2 : Wapi.parse_whisper_output c9Input true =
      some [⟨"hi", 0, 0, JVal.jnull⟩] := rfl
  refine ⟨h1, h2, ?_⟩
  rw [h1, h2]
  exact fun hc => Option.noConfusion hc

/-- Witness for C9: the two extractors agree on a concrete float-probability
output. -/
theorem C9_pipelines_agree_on_float_probabilities_witness :
    dataPOk c9WitnessInput = true
    ∧ Api.parse_whisper_output c9WitnessInput true =
        Wapi.parse_whisper_output c9WitnessInput true :=
  ⟨rfl, C9_pipelines_agree_on_float_probabilities.1 c9WitnessInput true rfl⟩

theorem strTake_length_le (n : Nat) (s : String) : (strTake n s).length ≤ n := by
  show (s.data.take n).length ≤ n
  rw [List.length_take]
  exact min_le_left _ _

theorem string_append_assoc (a b c : String) : (a ++ b) ++ c = a ++ (b ++ c) := by
  cases a; cases b; cases c
  show String.mk _ = String.mk _
  rw [List.append_assoc]

theorem pathSuffixL_append_wav (x : List Char) (c : Char) (t : List Char)
    (hrev : x.reverse = c :: t) (hc : c ≠ '/') :
    pathSuffixL (x ++ ('.' :: 'w' :: 'a' :: 'v' :: [])) =
      '.' :: 'w' :: 'a' :: 'v' :: [] := by
  have h1 : (x ++ ('.' :: 'w' :: 'a' :: 'v' :: [])).reverse =
      'v' :: 'a' :: 'w' :: '.' :: (c :: t) := by
    rw [List.reverse_append, hrev]
    rfl
  have h2 : ('v' :: 'a' :: 'w' :: '.' :: (c :: t)).takeWhile
      (fun c => decide (c ≠ '/')) =
      'v' :: 'a' :: 'w' :: '.' ::
        (c :: t.takeWhile (fun c => decide (c ≠ '/'))) := by
    simp only [List.takeWhile_cons, decide_eq_true_eq]
    rw [if_pos (by decide), if_pos (by decide), if_pos (by decide),
      if_pos (by decide)]
    rw [if_pos hc]
  have h4 : ('v' :: 'a' :: 'w' :: '.' ::
        (c :: t.takeWhile (fun c => decide (c ≠ '/')))).takeWhile
      (fun c => decide (c ≠ '.')) = ['v', 'a', 'w'] := by
    simp only [List.takeWhile_cons, decide_eq_true_eq]
    rw [if_pos (by decide), if_pos (by decide), if_pos (by decide),
      if_neg (by decide)]
  rw [pathSuffixL]
  simp only [h1, h2, h4]
  rw [if_pos]
  · rfl
  · refine ⟨by decide, ?_⟩
    simp only [List.length_cons, List.length_nil]
    omega

theorem pathSuffixL_shape (l : List Char) :
    pathSuffixL l = [] ∨
      ∃ c t, (pathSuffixL l).reverse = c :: t ∧ c ≠ '/' := by
  rw [pathSuffixL]
  by_cases hcnd : 0 < ((l.reverse.takeWhile (fun c => c ≠ '/')).takeWhile
      (fun c => c ≠ '.')).length ∧
      ((l.reverse.takeWhile (fun c => c ≠ '/')).takeWhile
        (fun c => c ≠ '.')).length + 1 <
      (l.reverse.takeWhile (fun c => c ≠ '/')).length
  · rw [if_pos hcnd]
    right
    obtain ⟨c, t', hct⟩ :=
      List.exists_cons_of_ne_nil (List.ne_nil_of_length_pos hcnd.1)
    refine ⟨c, t' ++ ['.'], ?_, ?_⟩
    · rw [List.reverse_cons, List.reverse_reverse, hct, List.cons_append]
    · have hmem : c ∈ (l.reverse.takeWhile (fun c => c ≠ '/')).takeWhile
          (fun c => c ≠ '.') := by rw [hct]; exact List.mem_cons_self c t'
      have hmem2 : c ∈ l.reverse.takeWhile (fun c => c ≠ '/') :=
        (List.takeWhile_sublist _).subset hmem
      have hp := List.mem_takeWhile_imp hmem2
      simpa using hp
  · rw [if_neg hcnd]
    left
    rfl

theorem suffixOf_rev_shape (env : Env) :
    ∃ c t, (Api.suffixOf env).data.reverse = c :: t ∧ c ≠ '/' := by
  rw [Api.suffixOf]
  by_cases h :
      pathSuffix (if env.filename = "" then "audio.wav" else env.filename) = ""
  · rw [if_pos h]
    exact ⟨'v', ['a', 'w', '.'], rfl, by decide⟩
  · rw [if_neg h]
    rcases pathSuffixL_shape
        (if env.filename = "" then "audio.wav" else env.filename).data with
      h0 | ⟨c, t, hct, hc⟩
    · exact absurd (show pathSuffix (if env.filename = "" then "audio.wav"
        else env.filename) = "" by rw [pathSuffix, h0]) h
    · exact ⟨c, t, hct, hc⟩

theorem tmp_rev_shape (env : Env) :
    ∃ c t, (env.tmpBase ++ Api.suffixOf env).data.reverse = c :: t ∧
      c ≠ '/' := by
  obtain ⟨c, t, hrev, hc⟩ := suffixOf_rev_shape env
  refine ⟨c, t ++ env.tmpBase.data.reverse, ?_, hc⟩
  show (env.tmpBase.data ++ (Api.suffixOf env).data).reverse = _
  rw [List.reverse_append, hrev, List.cons_append]

theorem alt_json_eq (env : Env) :
    pathWithSuffix ((env.tmpBase ++ Api.suffixOf env) ++ ".wav") ".json" =
      (env.tmpBase ++ Api.suffixOf env) ++ ".json" := by
  obtain ⟨c, t, hrev, hc⟩ := tmp_rev_shape env
  rw [pathWithSuffix]
  have hdata : ((env.tmpBase ++ Api.suffixOf env) ++ ".wav").data =
      (env.tmpBase ++ Api.suffixOf env).data ++
        ('.' :: 'w' :: 'a' :: 'v' :: []) := rfl
  rw [hdata, pathSuffixL_append_wav _ c t hrev hc]
  have hlen : ((env.tmpBase ++ Api.suffixOf env).data ++
        ('.' :: 'w' :: 'a' :: 'v' :: [])).length -
      ('.' :: 'w' :: 'a' :: 'v' :: []).length =
      (env.tmpBase ++ Api.suffixOf env).data.length := by
    simp only [List.length_append, List.length_cons, List.length_nil]
    omega
  rw [hlen, List.take_left]
  rfl

theorem transcribe_eq_staged (cfg : Config) (env : Env) {b m : String}
    (hb : Api.binaryPathOf cfg env = some b)
    (hm : Api.find_model_path cfg env.modelFs = some m) :
    Api.transcribe cfg env =
      { resp := (Api.tryBody env (Api.suffixOf env)
          (env.tmpBase ++ Api.suffixOf env)).1
        created := (env.tmpBase ++ Api.suffixOf env) ::
          (Api.tryBody env (Api.suffixOf env)
            (env.tmpBase ++ Api.suffixOf env)).2
        attempts := [env.tmpBase ++ Api.suffixOf env,
          (env.tmpBase ++ Api.suffixOf env) ++ ".wav",
          (env.tmpBase ++ Api.suffixOf env) ++ ".json",
          (env.tmpBase ++ Api.suffixOf env) ++ ".wav.json"] } := by
  rw [Api.transcribe, hb, hm]

theorem tryBody_conv_fail (env : Env) (sfx tmp : String)
    (hconv : pyLower sfx ≠ ".wav") (hrc : env.ffmpegRc ≠ 0) :
    Api.tryBody env sfx tmp =
      (Resp.err 400 ("Audio conversion failed: " ++ strTake 200 env.ffmpegErr),
       [tmp ++ ".wav"]) := by
  rw [Api.tryBody, if_pos hconv, if_pos hrc]

theorem tryBody_conv_ok (env : Env) (sfx tmp : String)
    (hok : pyLower sfx = ".wav" ∨ env.ffmpegRc = 0) :
    Api.tryBody env sfx tmp =
      Api.runEngine env (if pyLower sfx ≠ ".wav" then tmp ++ ".wav" else tmp)
        (if pyLower sfx ≠ ".wav" then [tmp ++ ".wav"] else []) := by
  rw [Api.tryBody]
  by_cases hconv : pyLower sfx ≠ ".wav"
  · simp only [if_pos hconv]
    rcases hok with h | h
    · exact absurd h hconv
    · rw [if_neg (fun hcc => hcc h)]
  · simp only [if_neg hconv]

theorem runEngine_fail (env : Env) (wav : String) (created : List String)
    (h : env.engineRc ≠ 0) :
    Api.runEngine env wav created =
      (Resp.err 500 ("Whisper transcription failed: " ++
        strTake 300 env.engineErr), created) := by
  rw [Api.runEngine, if_pos h]

theorem runEngine_noJson (env : Env) (wav : String) (created : List String)
    (h : env.engineRc = 0) (hj : env.jsonExists = false)
    (ha : env.altJsonExists = false) :
    Api.runEngine env wav created =
      (Resp.err 500 "Whisper did not produce JSON output", created) := by
  rw [Api.runEngine, if_neg (fun hk => hk h), Api.locateAndFinish, hj, ha]
  rw [if_neg Bool.false_ne_true, if_neg Bool.false_ne_true]

/-- C7: the terminal failure kinds map to exactly one HTTP status each:
missing binary → 503, missing model → 503, audio conversion failure → 400,
non-zero engine exit → 500 carrying stderr truncated to at most 300
characters, missing output artifact after a successful exit → 500; and an
error response is never a success payload. -/
theorem C7_error_status_mapping (cfg : Config) (env : Env) :
    (Api.binaryPathOf cfg env = none →
      (Api.transcribe cfg env).resp =
        Resp.err 503 ("whisper.cpp binary not found: " ++ cfg.whisperBin))
    ∧ (∀ b, Api.binaryPathOf cfg env = some b →
        Api.find_model_path cfg env.modelFs = none →
        (Api.transcribe cfg env).resp =
          Resp.err 503 ("Whisper model not found: ggml-" ++ cfg.whisperModel ++
            ".bin (searched in " ++ cfg.modelsDir ++ " and defaults)"))
    ∧ (∀ b m, Api.binaryPathOf cfg env = some b →
        Api.find_model_path cfg env.modelFs = some m →
        pyLower (Api.suffixOf env) ≠ ".wav" → env.ffmpegRc ≠ 0 →
        (Api.transcribe cfg env).resp =
          Resp.err 400 ("Audio conversion failed: " ++
            strTake 200 env.ffmpegErr))
    ∧ (∀ b m, Api.binaryPathOf cfg env = some b →
        Api.find_model_path cfg env.modelFs = some m →
        (pyLower (Api.suffixOf env) = ".wav" ∨ env.ffmpegRc = 0) →
        env.engineRc ≠ 0 →
        (Api.transcribe cfg env).resp =
          Resp.err 500 ("Whisper transcription failed: " ++
            strTake 300 env.engineErr)
        ∧ (strTake 300 env.engineErr).length ≤ 300)
    ∧ (∀ b m, Api.binaryPathOf cfg env = some b →
        Api.find_model_path cfg env.modelFs = some m →
        (pyLower (Api.suffixOf env) = ".wav" ∨ env.ffmpegRc = 0) →
        env.engineRc = 0 → env.jsonExists = false →
        env.altJsonExists = false →
        (Api.transcribe cfg env).resp =
          Resp.err 500 "Whisper did not produce JSON output")
    ∧ (∀ (st : Nat) (d : String) (cs : List Caption) (ft : String),
        Resp.err st d ≠ Resp.ok cs ft) := by
  refine ⟨?_, ?_, ?_, ?_, ?_, ?_⟩
  · intro h
    rw [Api.transcribe, h]
  · intro b hb hm
    rw [Api.transcribe, hb, hm]
  · intro b m hb hm hconv hrc
    rw [transcribe_eq_staged cfg env hb hm]
    show (Api.tryBody env (Api.suffixOf env)
      (env.tmpBase ++ Api.suffixOf env)).1 = _
    rw [tryBody_conv_fail env _ _ hconv hrc]
  · intro b m hb hm hok hrc
    rw [transcribe_eq_staged cfg env hb hm]
    refine ⟨?_, strTake_length_le 300 env.engineErr⟩
    show (Api.tryBody env (Api.suffixOf env)
      (env.tmpBase ++ Api.suffixOf env)).1 = _
    rw [tryBody_conv_ok env _ _ hok, runEngine_fail env _ _ hrc]
  · intro b m hb hm hok hrc hj ha
    rw [transcribe_eq_staged cfg env hb hm]
    show (Api.tryBody env (Api.suffixOf env)
      (env.tmpBase ++ Api.suffixOf env)).1 = _
    rw [tryBody_conv_ok env _ _ hok, runEngine_noJson env _ _ hrc hj ha]
  · intro st d cs ft h
    exact Resp.noConfusion h

/-- C8: when the availability check fails (binary or model unresolvable) the
request ends with a 503 error while no temporary file has been created and
no cleanup attempt has been made. -/
theorem C8_availability_failure_creates_no_files (cfg : Config) (env : Env)
    (h : Api.binaryPathOf cfg env = none ∨
      Api.find_model_path cfg env.modelFs = none) :
    (∃ d, (Api.transcribe cfg env).resp = Resp.err 503 d)
    ∧ (Api.transcribe cfg env).created = []
    ∧ (Api.transcribe cfg env).attempts = [] := by
  rcases h with h | h
  · rw [Api.transcribe, h]
    exact ⟨⟨_, rfl⟩, rfl, rfl⟩
  · cases hb : Api.binaryPathOf cfg env with
    | none =>
      rw [Api.transcribe, hb]
      exact ⟨⟨_, rfl⟩, rfl, rfl⟩
    | some b =>
      rw [Api.transcribe, hb, h]
      exact ⟨⟨_, rfl⟩, rfl, rfl⟩

/-- C2 (amended): whenever both availability checks pass, the cleanup phase
attempts removal of exactly the four paths tmp, tmp+".wav", tmp+".json" and
tmp+".wav.json" regardless of outcome; these always cover the original
upload, the converted copy and the engine output artifact, and cover the
fallback-name variant whenever the upload required conversion; and removal
failures never change the response.  (The unqualified claim fails: for an
upload already named *.wav the fallback-name variant is not attempted, see
the counterexample.) -/
theorem C2_cleanup_attempts_fixed_set (cfg : Config) (env : Env)
    {b m : String} (hb : Api.binaryPathOf cfg env = some b)
    (hm : Api.find_model_path cfg env.modelFs = some m) :
    (env.tmpBase ++ Api.suffixOf env) ∈ (Api.transcribe cfg env).attempts
    ∧ ((env.tmpBase ++ Api.suffixOf env) ++ ".wav") ∈
        (Api.transcribe cfg env).attempts
    ∧ ((if pyLower (Api.suffixOf env) ≠ ".wav" then
          (env.tmpBase ++ Api.suffixOf env) ++ ".wav"
        else env.tmpBase ++ Api.suffixOf env) ++ ".json") ∈
        (Api.transcribe cfg env).attempts
    ∧ (pyLower (Api.suffixOf env) ≠ ".wav" →
        pathWithSuffix ((env.tmpBase ++ Api.suffixOf env) ++ ".wav") ".json" ∈
          (Api.transcribe cfg env).attempts)
    ∧ ∀ f, (Api.transcribe cfg { env with unlinkFails := f }).resp =
        (Api.transcribe cfg env).resp := by
  rw [transcribe_eq_staged cfg env hb hm]
  refine ⟨by simp, by simp, ?_, ?_, ?_⟩
  · by_cases hconv : pyLower (Api.suffixOf env) ≠ ".wav"
    · rw [if_pos hconv,
        string_append_assoc (env.tmpBase ++ Api.suffixOf env) ".wav" ".json"]
      have hws : (".wav" : String) ++ ".json" = ".wav.json" := rfl
      rw [hws]
      simp
    · rw [if_neg hconv]
      simp
  · intro hconv
    rw [alt_json_eq env]
    simp
  · intro f
    have hb' : Api.binaryPathOf cfg { env with unlinkFails := f } = some b := hb
    have hm' : Api.find_model_path cfg
        ({ env with unlinkFails := f } : Env).modelFs = some m := hm
    rw [transcribe_eq_staged cfg _ hb' hm']
    rfl

/-- Witness for C2: on a concrete successful mp3 request the upload is in the
cleanup set and the fallback-name artifact variant is covered. -/
theorem C2_cleanup_attempts_fixed_set_witness :
    (c2okEnv.tmpBase ++ Api.suffixOf c2okEnv) ∈
      (Api.transcribe c2cfg c2okEnv).attempts
    ∧ (pyLower (Api.suffixOf c2okEnv) ≠ ".wav" →
        pathWithSuffix ((c2okEnv.tmpBase ++ Api.suffixOf c2okEnv) ++ ".wav")
          ".json" ∈ (Api.transcribe c2cfg c2okEnv).attempts) :=
  ⟨(C2_cleanup_attempts_fixed_set c2cfg c2okEnv rfl rfl).1,
   (C2_cleanup_attempts_fixed_set c2cfg c2okEnv rfl rfl).2.2.2.1⟩

/-- C2 counterexample: for a .wav upload whose engine output exists only
under the fallback name `/tmp/t1.json` (extension replaced by .json), the
request succeeds and that artifact was read by this request, yet its path is
not among the cleanup attempts `{tmp, tmp+".wav", tmp+".json",
tmp+".wav.json"}` — the fallback-name variant is not always removed. -/
theorem C2_counterexample_wav_fallback_not_removed :
    (Api.transcribe c2cfg c2wavEnv).resp = Resp.ok [] ""
    ∧ pathWithSuffix (c2wavEnv.tmpBase ++ Api.suffixOf c2wavEnv) ".json" =
        "/tmp/t1.json"
    ∧ "/tmp/t1.json" ∈ (Api.transcribe c2cfg c2wavEnv).created
    ∧ "/tmp/t1.json" ∉ (Api.transcribe c2cfg c2wavEnv).attempts :=
  ⟨rfl, by decide, by decide, by decide⟩

/-- Witness for C7 at the missing-binary case. -/
theorem C7_error_status_mapping_witness :
    (Api.transcribe c7cfg c7env).resp =
      Resp.err 503 ("whisper.cpp binary not found: " ++ c7cfg.whisperBin) :=
  (C7_error_status_mapping c7cfg c7env).1 rfl

/-- Witness for C8: availability failure yields a 503 with nothing created. -/
theorem C8_availability_failure_creates_no_files_witness :
    (∃ d, (Api.transcribe c8cfg c8env).resp = Resp.err 503 d)
    ∧ (Api.transcribe c8cfg c8env).created = []
    ∧ (Api.transcribe c8cfg c8env).attempts = [] :=
  C8_availability_failure_creates_no_files c8cfg c8env (Or.inl rfl)
